import Mathlib

/-!
Verification development for the GeM bids harvester
(`Archive/daily_gem_pdf_scraper.py`).

The Python source is shallowly embedded below.  Pure logic (filters, the
collection loop's control flow, dedup/compaction, the upload retry loop,
the idempotent-upload hash logic, the navigation strategy cascade and the
page-change poll) is translated into executable Lean definitions.  The
browser, the network, the filesystem clock and the regex date parser are
external effects: they are modelled as explicit inputs (per-iteration
observations, response scripts, a hash function parameter, the
pre-computed result of the date parser on a card's raw text), so every
definition stays computable and the control flow of the source is kept
verbatim.
-/

namespace GemScraper

/-- Calendar date (the `.date()` component of the datetimes the scraper
compares; `datetime.date` ordering is lexicographic on (year, month, day)). -/
structure Date where
  year : Nat
  month : Nat
  day : Nat
deriving DecidableEq, Repr

/-- Comparison `a < b` on dates, as Python's `datetime.date.__lt__`
(lexicographic). -/
def Date.lt (a b : Date) : Bool :=
  if a.year ≠ b.year then a.year < b.year
  else if a.month ≠ b.month then a.month < b.month
  else a.day < b.day

/-- Does `needle` occur as a prefix of `hay`? -/
def charsPrefix : List Char → List Char → Bool
  | [], _ => true
  | _ :: _, [] => false
  | a :: as, b :: bs => a == b && charsPrefix as bs

/-- Does `needle` occur as a contiguous substring of `hay`?  Embeds
Python's `needle in hay` on strings. -/
def charsSub (needle : List Char) : List Char → Bool
  | [] => charsPrefix needle []
  | b :: bs => charsPrefix needle (b :: bs) || charsSub needle bs

/-- Here `strContains hay needle` = Python `needle in hay`. -/
def strContains (hay needle : String) : Bool :=
  charsSub needle.toList hay.toList

/-- Python `s.strip()`: drop whitespace from both ends. -/
def pyStrip (s : String) : String :=
  ⟨((s.toList.dropWhile Char.isWhitespace).reverse.dropWhile
      Char.isWhitespace).reverse⟩

/-- Python `s.lower()`. -/
def pyLower (s : String) : String :=
  ⟨s.toList.map Char.toLower⟩

/-- Python `s.upper()`. -/
def pyUpper (s : String) : String :=
  ⟨s.toList.map Char.toUpper⟩

/-- Python `s[:n]`. -/
def pyTake (s : String) (n : Nat) : String :=
  ⟨s.toList.take n⟩

/-- Constant `PARSE_FAILURE_SAMPLE_LIMIT = 3` (source line 77). -/
def PARSE_FAILURE_SAMPLE_LIMIT : Nat := 3

/-- One bid card encountered on a listing page: the link's inner text
(`bid_number_text`), its `href`, the surrounding container's raw text, and
`start_parse` = the date component of `parse_start_datetime(raw_text)`
(the regex/dateutil parser is an external collaborator; its result on this
card is recorded here, `none` = parse failure). -/
structure BidCard where
  bid_number_text : String
  href : String
  raw_text : String
  start_parse : Option Date
deriving DecidableEq, Repr

/-- The persisted record streamed to NDJSON (source lines 777-785); the
pdf bookkeeping fields do not feed back into control flow and are kept
out of the model. `start_date` is the date component of the record's
`start_datetime`. -/
structure BidRecord where
  page : Nat
  bid_number : String
  detail_url : String
  start_date : Date
  raw_text : String
deriving DecidableEq, Repr

/-- Build the streamed record for an accepted card. -/
def mkBidRecord (card : BidCard) (page_number : Nat) (sd : Date) : BidRecord :=
  { page := page_number
    bid_number := card.bid_number_text
    detail_url := card.href
    start_date := sd
    raw_text := card.raw_text }

/-- The mutable state threaded through page scans: `seen` bid numbers,
parse-failure counters/samples, the `passed_target_date` flag, and the
NDJSON log contents (in append order). -/
structure ScanState where
  seen : List String
  parse_failures : Nat
  parse_failure_samples : List String
  passed_target_date : Bool
  log : List BidRecord
deriving DecidableEq, Repr

def initScanState : ScanState :=
  { seen := [], parse_failures := 0, parse_failure_samples := []
    passed_target_date := false, log := [] }

/-- The per-page bid loop of `scrape_and_stream` (source lines 693-819):
skip links without "/B/", skip cards whose upper-cased text contains
"RA NO", count/sample parse failures, on a start date strictly older than
`target_date` set `passed_target_date` and break out of the page, skip
non-target dates and duplicate bid numbers, and append accepted records
to the NDJSON log. -/
def scan_page_bids (target_date : Date) (page_number : Nat) :
    List BidCard → ScanState → ScanState
  | [], st => st
  | card :: rest, st =>
    if !(strContains card.bid_number_text "/B/") then
      scan_page_bids target_date page_number rest st
    else if strContains (pyUpper card.raw_text) "RA NO" then
      scan_page_bids target_date page_number rest st
    else
      match card.start_parse with
      | none =>
        scan_page_bids target_date page_number rest
          { st with
              parse_failures := st.parse_failures + 1
              parse_failure_samples :=
                if st.parse_failure_samples.length < PARSE_FAILURE_SAMPLE_LIMIT then
                  st.parse_failure_samples ++ [pyTake card.raw_text 400]
                else st.parse_failure_samples }
      | some sd =>
        if Date.lt sd target_date then
          { st with passed_target_date := true }
        else if sd ≠ target_date then
          scan_page_bids target_date page_number rest st
        else if st.seen.contains card.bid_number_text then
          scan_page_bids target_date page_number rest st
        else
          scan_page_bids target_date page_number rest
            { st with
                seen := card.bid_number_text :: st.seen
                log := st.log ++ [mkBidRecord card page_number sd] }

/-- Run configuration: `target_date`, `MIN_PAGES`, `MAX_PAGES` and
`CONSECUTIVE_NAV_FAILURES_BEFORE_ABORT` (all environment-configurable
constants in the source, lines 47-48 and 72). -/
structure ScrapeConfig where
  target_date : Date
  min_pages : Nat
  max_pages : Nat
  nav_abort_threshold : Nat
deriving DecidableEq, Repr

/-- What the browser presents during one iteration of the `while` loop:
the bid cards on the currently displayed page, the result of
`navigate_next` (did any strategy initiate a transition?) and the result
of `wait_for_page_change` for that transition. -/
structure IterInput where
  cards : List BidCard
  navigated : Bool
  verified : Bool
deriving DecidableEq, Repr

/-- Why the collection loop stopped. -/
inductive Halt where
  /-- Flag `passed_target_date` is set and `page_number >= MIN_PAGES`
      (line 822). -/
  | earlyStop
  /-- the `while page_number <= MAX_PAGES` condition failed (line 685). -/
  | maxPages
  /-- Counter `consecutive_nav_failures` reached
      `CONSECUTIVE_NAV_FAILURES_BEFORE_ABORT`
      (line 841). -/
  | abortNav
  /-- Verifier `wait_for_page_change` returned false after an initiated navigation
      (lines 857-860). -/
  | verifyTimeout
deriving DecidableEq, Repr

/-- Loop-level state: scan state plus `page_number` and
`consecutive_nav_failures`. -/
structure LoopState where
  scan : ScanState
  page_number : Nat
  consecutive_nav_failures : Nat
deriving DecidableEq, Repr

def initLoopState : LoopState :=
  { scan := initScanState, page_number := 1, consecutive_nav_failures := 0 }

/-- One iteration of the `while` body of `scrape_and_stream` (lines
686-862): scan the current page, check the early-stop condition, then
navigate; a `navigate_next` failure below the abort threshold retries
without advancing `page_number` (`continue`, line 846); a
`wait_for_page_change` failure breaks out of the loop immediately
(line 860); otherwise `page_number` advances. -/
def loopStep (cfg : ScrapeConfig) (inp : IterInput) (st : LoopState) :
    LoopState × Option Halt :=
  let sc := scan_page_bids cfg.target_date st.page_number inp.cards st.scan
  if sc.passed_target_date && decide (st.page_number ≥ cfg.min_pages) then
    ({ st with scan := sc }, some Halt.earlyStop)
  else if inp.navigated = false then
    let c := st.consecutive_nav_failures + 1
    if c ≥ cfg.nav_abort_threshold then
      ({ st with scan := sc, consecutive_nav_failures := c }, some Halt.abortNav)
    else
      ({ st with scan := sc, consecutive_nav_failures := c }, none)
  else if inp.verified = false then
    ({ st with scan := sc, consecutive_nav_failures := 0 }, some Halt.verifyTimeout)
  else
    ({ st with scan := sc, consecutive_nav_failures := 0
               page_number := st.page_number + 1 }, none)

/-- The `while page_number <= MAX_PAGES` loop of `scrape_and_stream`,
driven by the list of per-iteration browser inputs; `none` in the second
component means the input script ran out while the loop would have kept
going. -/
def scrapeLoop (cfg : ScrapeConfig) :
    List IterInput → LoopState → LoopState × Option Halt
  | [], st =>
    if st.page_number > cfg.max_pages then (st, some Halt.maxPages)
    else (st, none)
  | inp :: rest, st =>
    if st.page_number > cfg.max_pages then (st, some Halt.maxPages)
    else
      match loopStep cfg inp st with
      | (st', some h) => (st', some h)
      | (st', none) => scrapeLoop cfg rest st'

/-- A whole run of `scrape_and_stream` starting from the initial state
(page 1, empty log). -/
def scrape_and_stream (cfg : ScrapeConfig) (steps : List IterInput) :
    LoopState × Option Halt :=
  scrapeLoop cfg steps initLoopState

/-! ## Finalize / compaction (`dedupe_and_write_final_json`, lines 898-940)

The NDJSON temp file is read back line by line; the JSON round trip is
the identity on the records the run wrote, so the input is modelled as
the list of parsed records in file order. -/

/-- The dedup fold of `dedupe_and_write_final_json` (lines 913-925):
`bn = rec.get("bid_number"); if bn: if bn not in unique_map:
unique_map[bn] = rec`.  A Python dict preserves insertion order, so the
map is an association list in insertion order. -/
def build_unique_map : List BidRecord → List (String × BidRecord) →
    List (String × BidRecord)
  | [], m => m
  | rec :: rest, m =>
    if rec.bid_number ≠ "" && !(m.any (fun p => p.1 == rec.bid_number)) then
      build_unique_map rest (m ++ [(rec.bid_number, rec)])
    else
      build_unique_map rest m

/-- Lookup in the association-list map. -/
def mapLookup (m : List (String × BidRecord)) (k : String) : Option BidRecord :=
  (m.find? (fun p => p.1 == k)).map (fun p => p.2)

/-- Source `final_bids = list(unique_map.values())` (line 927). -/
def dedupedBids (lines : List BidRecord) : List BidRecord :=
  (build_unique_map lines []).map (fun p => p.2)

/-- Values of the run-level JSON document. -/
inductive JVal where
  | jstr : String → JVal
  | jnum : Nat → JVal
  | jarr : List BidRecord → JVal
deriving DecidableEq, Repr

/-- The compacted run document written by `dedupe_and_write_final_json`
(line 929): `payload = {"scraped_at": scraped_at, "record_count":
len(final_bids), "bids": final_bids}`, as an ordered key → value list. -/
def final_payload (scraped_at : String) (lines : List BidRecord) :
    List (String × JVal) :=
  let final_bids := dedupedBids lines
  [("scraped_at", JVal.jstr scraped_at),
   ("record_count", JVal.jnum final_bids.length),
   ("bids", JVal.jarr final_bids)]

/-- Lookup a key in the run-level JSON document. -/
def payloadGet (p : List (String × JVal)) (k : String) : Option JVal :=
  (p.find? (fun q => q.1 == k)).map (fun q => q.2)

/-! ## Artifact uploader (`upload_pdf_to_supabase`, lines 254-296, and
`_get_object_sha256_if_exists`, lines 216-251)

Two aspects are modelled separately, each faithful to its slice of the
source:

* the content-addressed skip logic over a storage state, with the
  network behaving (every HEAD and POST answered on first attempt) --
  this is what the idempotence property is about;
* the POST retry loop over an explicit script of HTTP responses -- this
  is what the 429 / backoff-budget property is about. -/

/-- Object storage: object key → stored `x-meta-sha256` metadata (the
upsert POST attaches the computed hash as that header, line 273, and the
HEAD probe reads it back, line 247). -/
structure Store where
  objects : List (String × String)
deriving DecidableEq, Repr

/-- Function `_get_object_sha256_if_exists` on a happy-path network: HEAD answers
200 with the stored `x-meta-sha256` when the object exists, 404 (hence
`None`) when it does not. -/
def get_object_sha256_if_exists (st : Store) (object_name : String) :
    Option String :=
  (st.objects.find? (fun p => p.1 == object_name)).map (fun p => p.2)

/-- The upsert write (`x-upsert: true`): the new metadata shadows any
previous object at the key. -/
def put_object (st : Store) (object_name sha : String) : Store :=
  { objects := (object_name, sha) :: st.objects }

/-- Result of one `upload_pdf_to_supabase` call: the storage state
afterwards, the returned `(uploaded, sha)` pair, and how many network
writes (upsert POSTs) the call performed. -/
structure UploadOutcome where
  store : Store
  uploaded : Bool
  sha : String
  net_writes : Nat
deriving DecidableEq, Repr

/-- Function `upload_pdf_to_supabase` (lines 254-296) on a happy-path network,
parameterized by the hash function `h` (SHA-256 hex digest in the
source): compute the hash, probe for an existing object, and skip the
write when the stored hash is truthy and matches
(`existing_sha.strip().lower() == sha.lower()`, line 261); otherwise
upsert the bytes with the hash attached. -/
def upload_pdf_to_supabase (h : List Nat → String) (st : Store)
    (pdf_bytes : List Nat) (object_name : String) : UploadOutcome :=
  let sha := h pdf_bytes
  match get_object_sha256_if_exists st object_name with
  | some existing_sha =>
    if existing_sha ≠ "" && (pyLower (pyStrip existing_sha) == pyLower sha) then
      { store := st, uploaded := false, sha := sha, net_writes := 0 }
    else
      { store := put_object st object_name sha, uploaded := true
        sha := sha, net_writes := 1 }
  | none =>
    { store := put_object st object_name sha, uploaded := true
      sha := sha, net_writes := 1 }

/-- One HTTP response to an upsert POST, as the retry loop of
`upload_pdf_to_supabase` distinguishes them: `ok`, a 429 carrying its
`Retry-After` value, or any other failure (non-ok status or a raised
exception). -/
inductive Resp where
  | ok
  | tooMany : Nat → Resp
  | fail
deriving DecidableEq, Repr

/-- The POST retry loop of `upload_pdf_to_supabase` (lines 276-296),
`for attempt in range(1, 4)`, consuming one scripted response per
attempt (an empty script stands for requests that raise).  `attempt` is
the 1-based attempt number of the source and `fuel` the number of
attempts still available, so the loop body runs for `attempt = 1, 2, 3`
when started as `upload_post_retry 1 3 rs`.  Returns whether the upload
succeeded (`false` = the final `RuntimeError`) and the list of
`time.sleep` durations performed: a 429 sleeps its `Retry-After` value
and then, like every other failed attempt, the common tail sleeps
`2 ** attempt` before the next attempt. -/
def upload_post_retry (attempt : Nat) : Nat → List Resp → Bool × List Nat
  | 0, _ => (false, [])
  | fuel + 1, rs =>
    match rs with
    | [] =>
      let r := upload_post_retry (attempt + 1) fuel []
      (r.1, 2 ^ attempt :: r.2)
    | Resp.ok :: _ => (true, [])
    | Resp.tooMany wait :: rest =>
      let r := upload_post_retry (attempt + 1) fuel rest
      (r.1, wait :: 2 ^ attempt :: r.2)
    | Resp.fail :: rest =>
      let r := upload_post_retry (attempt + 1) fuel rest
      (r.1, 2 ^ attempt :: r.2)

/-- Entry point of the POST phase of `upload_pdf_to_supabase`: 3 attempts,
numbered from 1 (`for attempt in range(1, 4)`). -/
def upload_post_phase (rs : List Resp) : Bool × List Nat :=
  upload_post_retry 1 3 rs

/-! ## Navigation controller (`navigate_next`, lines 338-484)

Each of the five fallback strategies is a block of browser calls whose
net effect is one of three outcomes: it initiated a transition (clicked
/ navigated / reloaded), it found no candidate element, or every call in
the block threw.  The browser's behaviour for one `navigate_next`
invocation is therefore an assignment of an outcome to each strategy. -/

/-- Net outcome of one navigation strategy block. -/
inductive StratResult where
  | initiated
  | noCandidate
  | threw
deriving DecidableEq, Repr

/-- The five strategies of `navigate_next`, in source order:
numbered-page-link click (lines 350-366), Next-control click (369-400),
DOM-href extraction + `page.goto` (403-449), JS-click of a
next-token anchor (452-474), `page.reload()` (477-482). -/
inductive NavStrategy where
  | numericLink
  | nextButton
  | domHref
  | jsClick
  | reloadPage
deriving DecidableEq, Repr

/-- Browser behaviour for one `navigate_next` call: the outcome of each
strategy block, were it tried. -/
structure NavEnv where
  numeric_link : StratResult
  next_button : StratResult
  dom_href : StratResult
  js_click : StratResult
  reload : StratResult
deriving DecidableEq, Repr

/-- Outcome of a given strategy under a browser behaviour. -/
def NavEnv.result (e : NavEnv) : NavStrategy → StratResult
  | NavStrategy.numericLink => e.numeric_link
  | NavStrategy.nextButton => e.next_button
  | NavStrategy.domHref => e.dom_href
  | NavStrategy.jsClick => e.js_click
  | NavStrategy.reloadPage => e.reload

/-- Function `navigate_next` (lines 338-484): the strategy blocks are tried in
source order, each inside its own `try/except`; the function returns
`True` at the first block that initiates a transition and `False` after
the last block otherwise.  Modelled as returning which strategy acted
(`none` = returned `False`). -/
def navigate_next (e : NavEnv) : Option NavStrategy :=
  if e.numeric_link = StratResult.initiated then some NavStrategy.numericLink
  else if e.next_button = StratResult.initiated then some NavStrategy.nextButton
  else if e.dom_href = StratResult.initiated then some NavStrategy.domHref
  else if e.js_click = StratResult.initiated then some NavStrategy.jsClick
  else if e.reload = StratResult.initiated then some NavStrategy.reloadPage
  else none

/-- The strategy order of the source. -/
def strategyOrder : List NavStrategy :=
  [NavStrategy.numericLink, NavStrategy.nextButton, NavStrategy.domHref,
   NavStrategy.jsClick, NavStrategy.reloadPage]

/-! ## Page-change verifier (`wait_for_page_change`, lines 487-572) -/

/-- What one poll tick observes: the current `page.url` and the inner
text of the first `a.bid_no_hover` (`none` when absent or unreadable). -/
structure TickObs where
  url : String
  first_bid : Option String
deriving DecidableEq, Repr

/-- Python truthiness of an optional string: present and nonempty. -/
def truthyStr : Option String → Bool
  | some s => s ≠ ""
  | none => false

/-- The three change signals of one poll tick, in source order (lines
521-532): the URL differs from `prev_url`; a first bid is truthy when
the baseline was `None`; both baseline and current first bid are truthy
and differ. -/
def tick_change (prev_url : String) (first_before : Option String)
    (o : TickObs) : Bool :=
  if o.url ≠ prev_url then true
  else
    match first_before, o.first_bid with
    | none, after => truthyStr after
    | some b, some a => b ≠ "" && a ≠ "" && a ≠ b
    | some _, none => false

/-- The poll loop of `wait_for_page_change` (lines 491-537):
`wait_interval_ms = 500`; while `waited < timeout_ms`, observe the page
(tick `t` reads `obs t`), stop with success on any change signal,
otherwise `waited += 500`. -/
def wait_poll (prev_url : String) (first_before : Option String)
    (obs : Nat → TickObs) (timeout_ms waited tick : Nat) : Bool :=
  if _h : waited < timeout_ms then
    if tick_change prev_url first_before (obs tick) then true
    else wait_poll prev_url first_before obs timeout_ms (waited + 500) (tick + 1)
  else false
termination_by timeout_ms - waited
decreasing_by all_goals omega

/-- Result of `wait_for_page_change`: the returned boolean and whether
the timeout diagnostics (an HTML snapshot and a full-page screenshot
under `failures/page_failure_<timestamp>`) were written. -/
structure WaitOutcome where
  changed : Bool
  diagnostics_saved : Bool
deriving DecidableEq, Repr

/-- Function `wait_for_page_change` (lines 487-572): poll up to the timeout; if
no tick signalled a change, save the HTML snapshot and screenshot, do
one final `page.reload()` and return whether the reload changed the URL
(`reload_url` is the URL observed after the final reload, `none` when
the reload itself threw; a URL read that throws yields `prev_url`,
line 563). -/
def wait_for_page_change (prev_url : String) (first_before : Option String)
    (obs : Nat → TickObs) (reload_url : Option String) (timeout_ms : Nat) :
    WaitOutcome :=
  if wait_poll prev_url first_before obs timeout_ms 0 0 then
    { changed := true, diagnostics_saved := false }
  else
    match reload_url with
    | some u => { changed := u != prev_url, diagnostics_saved := true }
    | none => { changed := false, diagnostics_saved := true }

/-! # Theorems -/

/-! ## Association-list map lemmas for the compaction fold -/

theorem mapLookup_append_single (m : List (String × BidRecord)) (k : String)
    (v : BidRecord) (bn : String) :
    mapLookup (m ++ [(k, v)]) bn
      = (mapLookup m bn).or (if k == bn then some v else none) := by
  induction m with
  | nil =>
    simp only [List.nil_append, mapLookup, List.find?]
    cases h : (k == bn) <;> simp [h]
  | cons a m ih =>
    simp only [List.cons_append, mapLookup, List.find?_cons] at *
    cases h : (a.1 == bn)
    · simp only [h] at ih ⊢
      exact ih
    · simp [h]

theorem mapLookup_eq_none_of_any_false (m : List (String × BidRecord))
    (k : String) (h : m.any (fun p => p.1 == k) = false) :
    mapLookup m k = none := by
  have hall : ∀ p ∈ m, ¬((p.1 == k) = true) := by
    intro p hp hpk
    have hany : m.any (fun p => p.1 == k) = true :=
      List.any_eq_true.mpr ⟨p, hp, hpk⟩
    rw [hany] at h
    cases h
  simp only [mapLookup, Option.map_eq_none']
  exact List.find?_eq_none.mpr hall

theorem mapLookup_isSome_of_any_true (m : List (String × BidRecord))
    (k : String) (h : m.any (fun p => p.1 == k) = true) :
    ∃ r, mapLookup m k = some r := by
  obtain ⟨p, hp, hk⟩ := List.any_eq_true.mp h
  have hsome : (m.find? (fun p => p.1 == k)).isSome := by
    rw [List.find?_isSome]
    exact ⟨p, hp, hk⟩
  obtain ⟨q, hq⟩ := Option.isSome_iff_exists.mp hsome
  exact ⟨q.2, by simp [mapLookup, hq]⟩

/-- The generalized invariant of the compaction fold: looking up `bn`
in the finished map yields the binding already in the accumulator if
there is one, and otherwise the first log line carrying `bn`. -/
theorem build_unique_map_lookup (bn : String) (hbn : bn ≠ "") :
    ∀ (lines : List BidRecord) (m : List (String × BidRecord)),
      mapLookup (build_unique_map lines m) bn
        = (mapLookup m bn).or (lines.find? (fun r => r.bid_number == bn)) := by
  intro lines
  induction lines with
  | nil => intro m; simp [build_unique_map]
  | cons rec rest ih =>
    intro m
    rw [build_unique_map, List.find?_cons]
    by_cases hcond :
        (rec.bid_number ≠ "" && !(m.any (fun p => p.1 == rec.bid_number))) = true
    · rw [if_pos hcond, ih, mapLookup_append_single]
      have hparts : rec.bid_number ≠ ""
          ∧ (m.any fun p => p.1 == rec.bid_number) = false := by
        simpa using hcond
      cases hkey : (rec.bid_number == bn) with
      | true =>
        have hkeq : rec.bid_number = bn := by simpa using hkey
        have hnone : mapLookup m bn = none :=
          mapLookup_eq_none_of_any_false m bn (hkeq ▸ hparts.2)
        simp [hnone, hkey]
      | false => simp [hkey]
    · rw [if_neg hcond, ih]
      cases hkey : (rec.bid_number == bn) with
      | true =>
        have hkeq : rec.bid_number = bn := by simpa using hkey
        have hany : (m.any fun p => p.1 == rec.bid_number) = true := by
          by_contra hc
          apply hcond
          have hfalse : (m.any fun p => p.1 == rec.bid_number) = false :=
            Bool.not_eq_true _ ▸ hc
          simp [hfalse, hkeq ▸ hbn]
        obtain ⟨r, hr⟩ := mapLookup_isSome_of_any_true m bn (hkeq ▸ hany)
        simp [hr, hkey]
      | false => simp [hkey]

/-- C3 (amended): the compaction map is first-write-wins: for every
identifier appearing in the log, the record kept is the one from the
first line carrying it. -/
theorem dedupe_first_write_wins (lines : List BidRecord) (bn : String)
    (hbn : bn ≠ "") :
    mapLookup (build_unique_map lines []) bn
      = lines.find? (fun r => r.bid_number == bn) := by
  rw [build_unique_map_lookup bn hbn lines []]
  simp [mapLookup]

/-- Two log lines carrying the same identifier but different contents. -/
def c3rec1 : BidRecord :=
  { page := 1, bid_number := "GEM/2025/B/77", detail_url := "u1"
    start_date := { year := 2025, month := 12, day := 1 }, raw_text := "first copy" }

def c3rec2 : BidRecord :=
  { page := 2, bid_number := "GEM/2025/B/77", detail_url := "u2"
    start_date := { year := 2025, month := 12, day := 1 }, raw_text := "second copy" }

/-- C3 (counterexample): on a log where the identifier
`GEM/2025/B/77` appears on two lines, the compacted output keeps the
record of the FIRST line, not the last: last-write-wins is false. -/
theorem dedupe_last_write_wins_counterexample :
    mapLookup (build_unique_map [c3rec1, c3rec2] []) "GEM/2025/B/77" = some c3rec1
      ∧ c3rec1 ≠ c3rec2 := by
  constructor
  · decide
  · decide

/-- C3 witness: the amended first-write-wins theorem applied to the
two-line log above. -/
theorem dedupe_first_write_wins_witness :
    "GEM/2025/B/77" ≠ ""
      ∧ mapLookup (build_unique_map [c3rec2, c3rec1] []) "GEM/2025/B/77"
          = List.find? (fun r => r.bid_number == "GEM/2025/B/77") [c3rec2, c3rec1] :=
  ⟨by decide, dedupe_first_write_wins [c3rec2, c3rec1] "GEM/2025/B/77" (by decide)⟩

/-! ## C5: shape of the compacted run document -/

/-- A sample log line. -/
def c5rec : BidRecord :=
  { page := 1, bid_number := "GEM/2025/B/3141", detail_url := "u"
    start_date := { year := 2025, month := 12, day := 1 }, raw_text := "card" }

/-- C5 (counterexample): the compacted document has no "records" key at
all — the deduplicated list is stored under "bids". -/
theorem final_payload_records_key_counterexample :
    payloadGet (final_payload "2025-12-02T03:00:00Z" [c5rec]) "records" = none
      ∧ (final_payload "2025-12-02T03:00:00Z" [c5rec]).map (fun q => q.1)
          = ["scraped_at", "record_count", "bids"] := by
  constructor
  · decide
  · decide

/-- C5 (amended): the compacted run document has exactly the keys
`scraped_at`, `record_count` and `bids`; the deduplicated record list is
stored under "bids", and `record_count` equals its length. -/
theorem final_payload_shape (sa : String) (lines : List BidRecord) :
    payloadGet (final_payload sa lines) "bids"
        = some (JVal.jarr (dedupedBids lines))
      ∧ payloadGet (final_payload sa lines) "record_count"
          = some (JVal.jnum (dedupedBids lines).length)
      ∧ payloadGet (final_payload sa lines) "scraped_at" = some (JVal.jstr sa)
      ∧ (final_payload sa lines).map (fun q => q.1)
          = ["scraped_at", "record_count", "bids"] := by
  refine ⟨rfl, rfl, rfl, rfl⟩

/-! ## C4: 429 handling in the upload retry loop -/

/-- C4 (counterexample): with the 3-attempt budget, two transient
failures followed by a success upload fine; interspersing one 429 before
them makes the call raise instead — a 429 does consume the attempt
budget, so the number of non-429 failures tolerated is not unchanged. -/
theorem upload_429_budget_counterexample :
    (upload_post_phase [Resp.fail, Resp.fail, Resp.ok]).1 = true
      ∧ (upload_post_phase [Resp.tooMany 5, Resp.fail, Resp.fail, Resp.ok]).1
          = false := by
  constructor
  · decide
  · decide

/-- C4 (amended): a 429 response makes the loop sleep the server's
`Retry-After` value (and then the `2 ** attempt` backoff), and retry —
but the retry consumes one attempt of the fixed 3-attempt budget,
exactly as a non-429 transient failure does. -/
theorem upload_429_consumes_attempt (attempt fuel w : Nat) (rs : List Resp) :
    upload_post_retry attempt (fuel + 1) (Resp.tooMany w :: rs)
        = ((upload_post_retry (attempt + 1) fuel rs).1,
           w :: 2 ^ attempt :: (upload_post_retry (attempt + 1) fuel rs).2)
      ∧ (upload_post_retry attempt (fuel + 1) (Resp.tooMany w :: rs)).1
          = (upload_post_retry attempt (fuel + 1) (Resp.fail :: rs)).1 := by
  refine ⟨rfl, rfl⟩

/-! ## C6: idempotence of the content-addressed upload -/

/-- After an upsert write, the HEAD probe reads the written hash back. -/
theorem probe_after_put (s : Store) (k sha : String) :
    get_object_sha256_if_exists (put_object s k sha) k = some sha := by
  simp [get_object_sha256_if_exists, put_object]

/-- When the probe returns the freshly computed hash (no surrounding
whitespace, nonempty), the call is a no-op. -/
theorem upload_skips_on_matching_probe (h : List Nat → String) (s : Store)
    (b : List Nat) (k : String) (htrim : pyStrip (h b) = h b) (hne : h b ≠ "")
    (hs : get_object_sha256_if_exists s k = some (h b)) :
    upload_pdf_to_supabase h s b k
      = { store := s, uploaded := false, sha := h b, net_writes := 0 } := by
  simp only [upload_pdf_to_supabase, hs]
  rw [if_pos]
  rw [htrim]
  simp [hne]

/-- C6: uploading the same bytes to the same key twice performs at most
one network write in total; the second call's probe reads back the
stored hash, finds it equal to the recomputed one, and returns
`uploaded = false` with that hash and no write.  The hash function `h`
stands for the SHA-256 hex digest, whence the side conditions: digests
are nonempty and carry no surrounding whitespace. -/
theorem upload_idempotent_second_call (h : List Nat → String) (st : Store)
    (b : List Nat) (k : String) (htrim : pyStrip (h b) = h b) (hne : h b ≠ "") :
    (upload_pdf_to_supabase h (upload_pdf_to_supabase h st b k).store b k).uploaded
        = false
      ∧ (upload_pdf_to_supabase h (upload_pdf_to_supabase h st b k).store b k).net_writes
          = 0
      ∧ (upload_pdf_to_supabase h (upload_pdf_to_supabase h st b k).store b k).sha
          = (upload_pdf_to_supabase h st b k).sha
      ∧ (upload_pdf_to_supabase h st b k).net_writes
          + (upload_pdf_to_supabase h (upload_pdf_to_supabase h st b k).store b k).net_writes
          ≤ 1 := by
  rcases hprobe : get_object_sha256_if_exists st k with _ | ex
  · have h1 : upload_pdf_to_supabase h st b k
        = { store := put_object st k (h b), uploaded := true
            sha := h b, net_writes := 1 } := by
      simp [upload_pdf_to_supabase, hprobe]
    rw [h1]
    rw [upload_skips_on_matching_probe h _ b k htrim hne (probe_after_put st k (h b))]
    exact ⟨rfl, rfl, rfl, Nat.le_refl 1⟩
  · by_cases hmatch : (ex ≠ "" && (pyLower (pyStrip ex) == pyLower (h b))) = true
    · have h1 : upload_pdf_to_supabase h st b k
          = { store := st, uploaded := false, sha := h b, net_writes := 0 } := by
        simp only [upload_pdf_to_supabase, hprobe]
        rw [if_pos hmatch]
      have h2 : upload_pdf_to_supabase h (upload_pdf_to_supabase h st b k).store b k
          = { store := st, uploaded := false, sha := h b, net_writes := 0 } := by
        rw [h1]
        exact h1
      rw [h2, h1]
      exact ⟨rfl, rfl, rfl, Nat.zero_le 1⟩
    · have h1 : upload_pdf_to_supabase h st b k
          = { store := put_object st k (h b), uploaded := true
              sha := h b, net_writes := 1 } := by
        simp only [upload_pdf_to_supabase, hprobe]
        rw [if_neg hmatch]
      rw [h1]
      rw [upload_skips_on_matching_probe h _ b k htrim hne (probe_after_put st k (h b))]
      exact ⟨rfl, rfl, rfl, Nat.le_refl 1⟩

/-- A stand-in hash function for the witness. -/
def c6hash : List Nat → String := fun _ => "ab"

/-- C6 witness: the idempotence theorem applied at an empty store, the
payload `[7]` and a concrete object key. -/
theorem upload_idempotent_witness :
    (pyStrip (c6hash [7]) = c6hash [7] ∧ c6hash [7] ≠ "")
      ∧ ((upload_pdf_to_supabase c6hash
            (upload_pdf_to_supabase c6hash { objects := [] } [7]
              "bids/2025-12-01/GeM_011225_B_1.pdf").store [7]
            "bids/2025-12-01/GeM_011225_B_1.pdf").uploaded = false
          ∧ (upload_pdf_to_supabase c6hash
              (upload_pdf_to_supabase c6hash { objects := [] } [7]
                "bids/2025-12-01/GeM_011225_B_1.pdf").store [7]
              "bids/2025-12-01/GeM_011225_B_1.pdf").net_writes = 0
          ∧ (upload_pdf_to_supabase c6hash
              (upload_pdf_to_supabase c6hash { objects := [] } [7]
                "bids/2025-12-01/GeM_011225_B_1.pdf").store [7]
              "bids/2025-12-01/GeM_011225_B_1.pdf").sha
              = (upload_pdf_to_supabase c6hash { objects := [] } [7]
                  "bids/2025-12-01/GeM_011225_B_1.pdf").sha
          ∧ (upload_pdf_to_supabase c6hash { objects := [] } [7]
              "bids/2025-12-01/GeM_011225_B_1.pdf").net_writes
              + (upload_pdf_to_supabase c6hash
                  (upload_pdf_to_supabase c6hash { objects := [] } [7]
                    "bids/2025-12-01/GeM_011225_B_1.pdf").store [7]
                  "bids/2025-12-01/GeM_011225_B_1.pdf").net_writes ≤ 1) :=
  ⟨⟨by decide, by decide⟩,
    upload_idempotent_second_call c6hash { objects := [] } [7]
      "bids/2025-12-01/GeM_011225_B_1.pdf" (by decide) (by decide)⟩

/-! ## C1: halting conditions of the collection loop -/

/-- What is true of the final state for each way the loop can halt. -/
def haltCond (cfg : ScrapeConfig) (st : LoopState) : Halt → Prop
  | Halt.earlyStop =>
      st.scan.passed_target_date = true ∧ st.page_number ≥ cfg.min_pages
  | Halt.maxPages => st.page_number > cfg.max_pages
  | Halt.abortNav =>
      st.consecutive_nav_failures ≥ cfg.nav_abort_threshold
  | Halt.verifyTimeout => st.consecutive_nav_failures = 0

theorem loopStep_halt (cfg : ScrapeConfig) (inp : IterInput) (st st' : LoopState)
    (h : Halt) (heq : loopStep cfg inp st = (st', some h)) : haltCond cfg st' h := by
  simp only [loopStep] at heq
  split_ifs at heq with hA hB hC hD
  · injection heq with h1 h2
    injection h2 with h2
    subst h1
    subst h2
    have hA2 := hA
    simp only [Bool.and_eq_true, decide_eq_true_eq] at hA2
    exact ⟨hA2.1, hA2.2⟩
  · injection heq with h1 h2
    injection h2 with h2
    subst h1
    subst h2
    exact hC
  · injection heq with h1 h2
    cases h2
  · injection heq with h1 h2
    injection h2 with h2
    subst h1
    subst h2
    rfl
  · injection heq with h1 h2
    cases h2

theorem scrapeLoop_halt (cfg : ScrapeConfig) :
    ∀ (steps : List IterInput) (st st' : LoopState) (h : Halt),
      scrapeLoop cfg steps st = (st', some h) → haltCond cfg st' h := by
  intro steps
  induction steps with
  | nil =>
    intro st st' h heq
    simp only [scrapeLoop] at heq
    split_ifs at heq with hmax
    · injection heq with h1 h2
      injection h2 with h2
      subst h1
      subst h2
      exact hmax
    · injection heq with h1 h2
      cases h2
  | cons inp rest ih =>
    intro st st' h heq
    simp only [scrapeLoop] at heq
    split_ifs at heq with hmax
    · injection heq with h1 h2
      injection h2 with h2
      subst h1
      subst h2
      exact hmax
    · rcases hstep : loopStep cfg inp st with ⟨st1, o⟩
      rw [hstep] at heq
      cases o with
      | none => exact ih st1 st' h heq
      | some h0 =>
        injection heq with h1 h2
        injection h2 with h2
        subst h1
        subst h2
        exact loopStep_halt cfg inp st _ _ hstep

/-- C1 (amended): the loop halts only in one of four ways — early stop
(`passed_target_date` with `page_number ≥ min_pages`), the
`page_number > max_pages` loop condition, the consecutive
`navigate_next`-failure counter reaching the abort threshold, or a
`wait_for_page_change` failure after an initiated navigation, which
halts immediately with the failure counter at 0 (it was just reset; it
is not incremented by verifier failures).  It is a `navigate_next`
failure below the threshold that leads to a retry without advancing
`page_number`. -/
theorem collection_loop_halt_conditions :
    (∀ (cfg : ScrapeConfig) (steps : List IterInput) (st' : LoopState) (h : Halt),
        scrape_and_stream cfg steps = (st', some h) → haltCond cfg st' h)
      ∧ (∀ (cfg : ScrapeConfig) (inp : IterInput) (st : LoopState),
          inp.navigated = false →
          ((scan_page_bids cfg.target_date st.page_number inp.cards st.scan).passed_target_date
              && decide (st.page_number ≥ cfg.min_pages)) = false →
          st.consecutive_nav_failures + 1 < cfg.nav_abort_threshold →
          loopStep cfg inp st
            = ({ st with
                  scan := scan_page_bids cfg.target_date st.page_number inp.cards st.scan
                  consecutive_nav_failures := st.consecutive_nav_failures + 1 },
               none)) := by
  constructor
  · intro cfg steps st' h heq
    exact scrapeLoop_halt cfg steps initLoopState st' h heq
  · intro cfg inp st hnav hpass hthresh
    simp only [loopStep]
    rw [if_neg (by simp [hpass]), if_pos hnav, if_neg (by omega)]

/-- Concrete run for the C1 counterexample: one iteration whose
navigation is initiated but whose page-change verification fails. -/
def c1cfg : ScrapeConfig :=
  { target_date := { year := 2025, month := 12, day := 1 }
    min_pages := 5, max_pages := 10, nav_abort_threshold := 6 }

def c1steps : List IterInput :=
  [{ cards := [], navigated := true, verified := false }]

/-- C1 (counterexample): the run halts after a verifier failure although
none of the three stated conditions holds — `passed_target_date` is
false, `page_number ≤ max_pages`, and the consecutive-failure counter
(still 0: verifier failures do not increment it) is below the
threshold.  The verifier failure caused an immediate halt, not a
counted retry. -/
theorem collection_loop_halt_counterexample :
    (scrape_and_stream c1cfg c1steps).2 = some Halt.verifyTimeout
      ∧ (scrape_and_stream c1cfg c1steps).1.scan.passed_target_date = false
      ∧ (scrape_and_stream c1cfg c1steps).1.page_number ≤ c1cfg.max_pages
      ∧ (scrape_and_stream c1cfg c1steps).1.consecutive_nav_failures = 0
      ∧ 0 < c1cfg.nav_abort_threshold := by
  decide

/-- C1 witness: both parts of the amended theorem applied at concrete
inputs — the halt characterization at the verifier-failure run above,
and the retry equation at a navigation-failure iteration. -/
theorem collection_loop_halt_conditions_witness :
    haltCond c1cfg (scrape_and_stream c1cfg c1steps).1 Halt.verifyTimeout
      ∧ loopStep c1cfg { cards := [], navigated := false, verified := true }
          initLoopState
          = ({ initLoopState with
                scan := scan_page_bids c1cfg.target_date 1 [] initScanState
                consecutive_nav_failures := 1 }, none) :=
  ⟨collection_loop_halt_conditions.1 c1cfg c1steps _ Halt.verifyTimeout (by decide),
   collection_loop_halt_conditions.2 c1cfg
     { cards := [], navigated := false, verified := true } initLoopState
     (by decide) (by decide) (by decide)⟩

/-! ## Log-membership invariants (C7, C10) -/

/-- Acceptance properties of every record a page scan appends: it passed
the "/B/" filter, the reverse-auction filter, and the exact-date
filter. -/
def acceptedProps (t : Date) (r : BidRecord) : Prop :=
  strContains r.bid_number "/B/" = true
    ∧ strContains (pyUpper r.raw_text) "RA NO" = false
    ∧ r.start_date = t

theorem scan_page_bids_log_mem (t : Date) (pn : Nat) :
    ∀ (cards : List BidCard) (st : ScanState) (r : BidRecord),
      r ∈ (scan_page_bids t pn cards st).log →
      r ∈ st.log ∨ acceptedProps t r := by
  intro cards
  induction cards with
  | nil => intro st r hr; exact Or.inl hr
  | cons card rest ih =>
    intro st r hr
    rw [scan_page_bids] at hr
    by_cases h1 : (!(strContains card.bid_number_text "/B/")) = true
    · rw [if_pos h1] at hr
      exact ih st r hr
    · rw [if_neg h1] at hr
      by_cases h2 : strContains (pyUpper card.raw_text) "RA NO" = true
      · rw [if_pos h2] at hr
        exact ih st r hr
      · rw [if_neg h2] at hr
        cases hp : card.start_parse with
        | none =>
          rw [hp] at hr
          rcases ih
              { st with
                  parse_failures := st.parse_failures + 1
                  parse_failure_samples :=
                    if st.parse_failure_samples.length
                        < PARSE_FAILURE_SAMPLE_LIMIT then
                      st.parse_failure_samples ++ [pyTake card.raw_text 400]
                    else st.parse_failure_samples } r hr with hmem | hprops
          · exact Or.inl hmem
          · exact Or.inr hprops
        | some sd =>
          rw [hp] at hr
          have hr2 : r ∈ (if Date.lt sd t then
                ({ st with passed_target_date := true } : ScanState)
              else if sd ≠ t then scan_page_bids t pn rest st
              else if st.seen.contains card.bid_number_text then
                scan_page_bids t pn rest st
              else scan_page_bids t pn rest
                { st with
                    seen := card.bid_number_text :: st.seen
                    log := st.log ++ [mkBidRecord card pn sd] }).log := hr
          by_cases h3 : Date.lt sd t = true
          · rw [if_pos h3] at hr2
            exact Or.inl hr2
          · rw [if_neg h3] at hr2
            by_cases h4 : sd ≠ t
            · rw [if_pos h4] at hr2
              exact ih st r hr2
            · rw [if_neg h4] at hr2
              by_cases h5 : st.seen.contains card.bid_number_text = true
              · rw [if_pos h5] at hr2
                exact ih st r hr2
              · rw [if_neg h5] at hr2
                rcases ih
                    { st with
                        seen := card.bid_number_text :: st.seen
                        log := st.log ++ [mkBidRecord card pn sd] } r hr2
                  with hmem | hprops
                · simp only [List.mem_append, List.mem_singleton] at hmem
                  rcases hmem with hmem | hmem
                  · exact Or.inl hmem
                  · right
                    subst hmem
                    refine ⟨?_, ?_, ?_⟩
                    · simpa using h1
                    · simpa using h2
                    · simpa using h4
                · exact Or.inr hprops

theorem loopStep_scan (cfg : ScrapeConfig) (inp : IterInput) (st : LoopState) :
    ((loopStep cfg inp st).1).scan
      = scan_page_bids cfg.target_date st.page_number inp.cards st.scan := by
  simp only [loopStep]
  split_ifs <;> rfl

theorem scrapeLoop_log_mem (cfg : ScrapeConfig) :
    ∀ (steps : List IterInput) (st : LoopState) (r : BidRecord),
      r ∈ ((scrapeLoop cfg steps st).1).scan.log →
      r ∈ st.scan.log ∨ acceptedProps cfg.target_date r := by
  intro steps
  induction steps with
  | nil =>
    intro st r hr
    have hfst : (scrapeLoop cfg [] st).1 = st := by
      simp only [scrapeLoop]
      split_ifs <;> rfl
    rw [hfst] at hr
    exact Or.inl hr
  | cons inp rest ih =>
    intro st r hr
    simp only [scrapeLoop] at hr
    split_ifs at hr with hmax
    · exact Or.inl hr
    · rcases hstep : loopStep cfg inp st with ⟨st1, o⟩
      rw [hstep] at hr
      have hstep_log : r ∈ st1.scan.log →
          r ∈ st.scan.log ∨ acceptedProps cfg.target_date r := by
        intro hmem
        have hscan := loopStep_scan cfg inp st
        rw [hstep] at hscan
        exact scan_page_bids_log_mem cfg.target_date st.page_number inp.cards
          st.scan r (hscan ▸ hmem)
      cases o with
      | none =>
        rcases ih st1 r hr with hmem | hprops
        · exact hstep_log hmem
        · exact Or.inr hprops
      | some h0 => exact hstep_log hr

/-- Every record of the compacted output comes from the NDJSON log. -/
theorem build_unique_map_mem (r : BidRecord) :
    ∀ (lines : List BidRecord) (m : List (String × BidRecord)),
      r ∈ (build_unique_map lines m).map (fun p => p.2) →
      r ∈ m.map (fun p => p.2) ∨ r ∈ lines := by
  intro lines
  induction lines with
  | nil => intro m hr; exact Or.inl hr
  | cons rec rest ih =>
    intro m hr
    rw [build_unique_map] at hr
    by_cases hc : (rec.bid_number ≠ ""
        && !(m.any (fun p => p.1 == rec.bid_number))) = true
    · rw [if_pos hc] at hr
      rcases ih _ hr with hmem | hmem
      · rw [List.map_append] at hmem
        rcases List.mem_append.mp hmem with hmem | hmem
        · exact Or.inl hmem
        · simp only [List.map_cons, List.map_nil, List.mem_singleton] at hmem
          exact Or.inr (by simp [hmem])
      · exact Or.inr (List.mem_cons_of_mem _ hmem)
    · rw [if_neg hc] at hr
      rcases ih _ hr with hmem | hmem
      · exact Or.inl hmem
      · exact Or.inr (List.mem_cons_of_mem _ hmem)

/-- C7: every record appended to the NDJSON log — and hence every record
of the compacted output — has a start date equal to the run's
`target_date`; strictly older dates break the scan and newer dates are
skipped, so neither is ever persisted. -/
theorem persisted_start_date_eq_target (cfg : ScrapeConfig)
    (steps : List IterInput) (r : BidRecord) :
    (r ∈ ((scrape_and_stream cfg steps).1).scan.log →
        r.start_date = cfg.target_date)
      ∧ (r ∈ dedupedBids ((scrape_and_stream cfg steps).1).scan.log →
          r.start_date = cfg.target_date) := by
  have hlog : r ∈ ((scrape_and_stream cfg steps).1).scan.log →
      r.start_date = cfg.target_date := by
    intro hr
    rcases scrapeLoop_log_mem cfg steps initLoopState r hr with hmem | hprops
    · cases hmem
    · exact hprops.2.2
  refine ⟨hlog, fun hr => ?_⟩
  rcases build_unique_map_mem r _ [] hr with hmem | hmem
  · cases hmem
  · exact hlog hmem

/-- Concrete run for the C7 witness. -/
def c7cfg : ScrapeConfig :=
  { target_date := { year := 2025, month := 12, day := 1 }
    min_pages := 1, max_pages := 100, nav_abort_threshold := 6 }

def c7card : BidCard :=
  { bid_number_text := "GEM/2025/B/500", href := "/bid/500"
    raw_text := "Items: pens Start Date: 01-12-2025 1:00 PM"
    start_parse := some { year := 2025, month := 12, day := 1 } }

def c7steps : List IterInput :=
  [{ cards := [c7card], navigated := true, verified := true }]

/-- C7 witness: the date invariant applied to a record that a concrete
run actually persisted. -/
theorem persisted_start_date_eq_target_witness :
    mkBidRecord c7card 1 { year := 2025, month := 12, day := 1 }
        ∈ ((scrape_and_stream c7cfg c7steps).1).scan.log
      ∧ (mkBidRecord c7card 1 { year := 2025, month := 12, day := 1 }).start_date
          = c7cfg.target_date :=
  ⟨by decide,
   (persisted_start_date_eq_target c7cfg c7steps
      (mkBidRecord c7card 1 { year := 2025, month := 12, day := 1 })).1 (by decide)⟩

/-- C10: every persisted record — in the NDJSON log and hence in the
compacted output — has an identifier containing "/B/" and a raw text
whose upper-casing does not contain "RA NO": reverse-auction entries
are filtered out before date filtering and deduplication. -/
theorem persisted_records_not_reverse_auction (cfg : ScrapeConfig)
    (steps : List IterInput) (r : BidRecord) :
    (r ∈ ((scrape_and_stream cfg steps).1).scan.log →
        strContains r.bid_number "/B/" = true
          ∧ strContains (pyUpper r.raw_text) "RA NO" = false)
      ∧ (r ∈ dedupedBids ((scrape_and_stream cfg steps).1).scan.log →
          strContains r.bid_number "/B/" = true
            ∧ strContains (pyUpper r.raw_text) "RA NO" = false) := by
  have hlog : r ∈ ((scrape_and_stream cfg steps).1).scan.log →
      strContains r.bid_number "/B/" = true
        ∧ strContains (pyUpper r.raw_text) "RA NO" = false := by
    intro hr
    rcases scrapeLoop_log_mem cfg steps initLoopState r hr with hmem | hprops
    · cases hmem
    · exact ⟨hprops.1, hprops.2.1⟩
  refine ⟨hlog, fun hr => ?_⟩
  rcases build_unique_map_mem r _ [] hr with hmem | hmem
  · cases hmem
  · exact hlog hmem

/-- Concrete run for the C10 witness: a reverse-auction card and an
RA-marked card next to an ordinary bid card. -/
def c10cfg : ScrapeConfig :=
  { target_date := { year := 2025, month := 12, day := 1 }
    min_pages := 1, max_pages := 100, nav_abort_threshold := 6 }

def c10bid : BidCard :=
  { bid_number_text := "GEM/2025/B/600", href := "/bid/600"
    raw_text := "Items: ink Start Date: 01-12-2025 2:00 PM"
    start_parse := some { year := 2025, month := 12, day := 1 } }

def c10ra : BidCard :=
  { bid_number_text := "GEM/2025/RA/601", href := "/ra/601"
    raw_text := "RA no items Start Date: 01-12-2025 2:00 PM"
    start_parse := some { year := 2025, month := 12, day := 1 } }

def c10steps : List IterInput :=
  [{ cards := [c10ra, c10bid], navigated := true, verified := true }]

/-- C10 witness: the filter invariant applied to the record the run
persisted (the RA card was dropped, the bid card kept). -/
theorem persisted_records_not_reverse_auction_witness :
    mkBidRecord c10bid 1 { year := 2025, month := 12, day := 1 }
        ∈ ((scrape_and_stream c10cfg c10steps).1).scan.log
      ∧ (strContains
            (mkBidRecord c10bid 1 { year := 2025, month := 12, day := 1 }).bid_number
            "/B/" = true
          ∧ strContains
              (pyUpper (mkBidRecord c10bid 1
                { year := 2025, month := 12, day := 1 }).raw_text) "RA NO" = false) :=
  ⟨by decide,
   (persisted_records_not_reverse_auction c10cfg c10steps
      (mkBidRecord c10bid 1 { year := 2025, month := 12, day := 1 })).1 (by decide)⟩

/-! ## C2: Scenario A -/

def c2cfg : ScrapeConfig :=
  { target_date := { year := 2025, month := 12, day := 1 }
    min_pages := 1, max_pages := 5000, nav_abort_threshold := 6 }

def c2card1 : BidCard :=
  { bid_number_text := "GEM/2025/B/101", href := "/bid/101"
    raw_text := "Items: a Start Date: 01-12-2025 9:00 AM"
    start_parse := some { year := 2025, month := 12, day := 1 } }

def c2card2 : BidCard :=
  { bid_number_text := "GEM/2025/B/102", href := "/bid/102"
    raw_text := "Items: b Start Date: 01-12-2025 8:00 AM"
    start_parse := some { year := 2025, month := 12, day := 1 } }

def c2card3 : BidCard :=
  { bid_number_text := "GEM/2025/B/103", href := "/bid/103"
    raw_text := "Items: c Start Date: 01-12-2025 7:00 AM"
    start_parse := some { year := 2025, month := 12, day := 1 } }

def c2card4 : BidCard :=
  { bid_number_text := "GEM/2025/B/104", href := "/bid/104"
    raw_text := "Items: d Start Date: 30-11-2025 3:00 PM"
    start_parse := some { year := 2025, month := 11, day := 30 } }

def c2card5 : BidCard :=
  { bid_number_text := "GEM/2025/B/105", href := "/bid/105"
    raw_text := "Items: e Start Date: 01-12-2025 6:00 AM"
    start_parse := some { year := 2025, month := 12, day := 1 } }

/-- Scenario A's listing: page 1 has 3 records dated 2025-12-01, page 2
has 1 record dated 2025-11-30; a third page is offered to the loop but
must never be scanned. -/
def c2steps : List IterInput :=
  [{ cards := [c2card1, c2card2, c2card3], navigated := true, verified := true },
   { cards := [c2card4], navigated := true, verified := true },
   { cards := [c2card5], navigated := true, verified := true }]

/-- C2: with `target_date = 2025-12-01` and `min_pages = 1`, the run
stops with the early-stop halt while still on page 2 (the third
scripted page is never scanned: the log has exactly the 3 page-1
records), and the compacted document has `record_count = 3`. -/
theorem scenario_a :
    (scrape_and_stream c2cfg c2steps).2 = some Halt.earlyStop
      ∧ (scrape_and_stream c2cfg c2steps).1.page_number = 2
      ∧ ((scrape_and_stream c2cfg c2steps).1).scan.log
          = [mkBidRecord c2card1 1 { year := 2025, month := 12, day := 1 },
             mkBidRecord c2card2 1 { year := 2025, month := 12, day := 1 },
             mkBidRecord c2card3 1 { year := 2025, month := 12, day := 1 }]
      ∧ payloadGet
          (final_payload "2025-12-02T00:00:00Z"
            (((scrape_and_stream c2cfg c2steps).1).scan.log))
          "record_count" = some (JVal.jnum 3) := by
  refine ⟨by decide, by decide, by decide, by decide⟩

/-! ## C8: the navigation strategy cascade -/

/-- C8: `navigate_next` tries its strategies strictly in source order
and acts on the first one that initiates a transition (it equals
`find?` over the ordered strategy list); it reports success exactly
when some strategy initiated, and failure exactly when every strategy
threw or found no candidate. -/
theorem navigate_next_first_strategy (e : NavEnv) :
    navigate_next e
        = strategyOrder.find? (fun s => e.result s == StratResult.initiated)
      ∧ ((navigate_next e).isSome = true
          ↔ ∃ s ∈ strategyOrder, e.result s = StratResult.initiated)
      ∧ (navigate_next e = none
          ↔ ∀ s ∈ strategyOrder,
              e.result s = StratResult.noCandidate
                ∨ e.result s = StratResult.threw) := by
  obtain ⟨a, b, c, d, r⟩ := e
  cases a <;> cases b <;> cases c <;> cases d <;> cases r <;>
    exact ⟨rfl, by decide, by decide⟩

/-! ## C9: the page-change verifier -/

theorem wait_poll_true_iff (prev_url : String) (fb : Option String)
    (obs : Nat → TickObs) (tm : Nat) :
    ∀ (waited tick : Nat),
      wait_poll prev_url fb obs tm waited tick = true ↔
        ∃ i, waited + 500 * i < tm
          ∧ tick_change prev_url fb (obs (tick + i)) = true := by
  have main : ∀ (k waited tick : Nat), tm - waited = k →
      (wait_poll prev_url fb obs tm waited tick = true ↔
        ∃ i, waited + 500 * i < tm
          ∧ tick_change prev_url fb (obs (tick + i)) = true) := by
    intro k
    induction k using Nat.strong_induction_on with
    | _ k ihk =>
      intro waited tick hk
      rw [wait_poll]
      by_cases hw : waited < tm
      · rw [dif_pos hw]
        by_cases hc : tick_change prev_url fb (obs tick) = true
        · rw [if_pos hc]
          constructor
          · intro _
            exact ⟨0, by omega, by simpa using hc⟩
          · intro _
            rfl
        · rw [if_neg hc]
          have hlt : tm - (waited + 500) < k := by omega
          rw [ihk _ hlt (waited + 500) (tick + 1) rfl]
          constructor
          · rintro ⟨i, hi, hci⟩
            refine ⟨i + 1, by omega, ?_⟩
            have harith : tick + (i + 1) = tick + 1 + i := by omega
            rw [harith]
            exact hci
          · rintro ⟨i, hi, hci⟩
            cases i with
            | zero => exact absurd (by simpa using hci) hc
            | succ j =>
              refine ⟨j, by omega, ?_⟩
              have harith : tick + 1 + j = tick + (j + 1) := by omega
              rw [harith]
              exact hci
      · rw [dif_neg hw]
        constructor
        · intro hfalse
          cases hfalse
        · rintro ⟨i, hi, _⟩
          exact absurd hi (by omega)
  intro waited tick
  exact main (tm - waited) waited tick rfl

/-- C9: the verifier polls at the fixed 500 ms interval up to the
timeout and succeeds as soon as a tick shows a changed URL, a first
identifier where the baseline was absent, or a first identifier
differing from the baseline; exactly when no tick succeeds it saves the
diagnostics (HTML snapshot + screenshot) and performs the final reload,
returning true if and only if the reload produced a URL different from
`prev_url`. -/
theorem wait_for_page_change_spec (prev_url : String) (fb : Option String)
    (obs : Nat → TickObs) (reload_url : Option String) (tm : Nat) :
    ((wait_for_page_change prev_url fb obs reload_url tm).diagnostics_saved = true
        ↔ ∀ i, 500 * i < tm → tick_change prev_url fb (obs i) = false)
      ∧ ((wait_for_page_change prev_url fb obs reload_url tm).changed = true
          ↔ (∃ i, 500 * i < tm ∧ tick_change prev_url fb (obs i) = true)
            ∨ ((∀ i, 500 * i < tm → tick_change prev_url fb (obs i) = false)
                ∧ ∃ u, reload_url = some u ∧ u ≠ prev_url)) := by
  have hpoll := wait_poll_true_iff prev_url fb obs tm 0 0
  simp only [Nat.zero_add] at hpoll
  unfold wait_for_page_change
  by_cases hp : wait_poll prev_url fb obs tm 0 0 = true
  · rw [if_pos hp]
    obtain ⟨i, hi, hci⟩ := hpoll.mp hp
    constructor
    · constructor
      · intro hfalse
        cases hfalse
      · intro hall
        exact absurd hci (by simp [hall i hi])
    · constructor
      · intro _
        exact Or.inl ⟨i, hi, hci⟩
      · intro _
        rfl
  · rw [if_neg hp]
    have hall : ∀ i, 500 * i < tm → tick_change prev_url fb (obs i) = false := by
      intro i hi
      by_contra hc
      exact hp (hpoll.mpr ⟨i, hi, Bool.not_eq_false _ ▸ hc⟩)
    have hnone : ¬∃ i, 500 * i < tm ∧ tick_change prev_url fb (obs i) = true := by
      rintro ⟨i, hi, hci⟩
      rw [hall i hi] at hci
      cases hci
    cases reload_url with
    | some u =>
      constructor
      · simp only [true_iff]
        exact hall
      · constructor
        · intro hch
          exact Or.inr ⟨hall, u, rfl, by simpa using hch⟩
        · intro hor
          rcases hor with hex | ⟨_, u2, hu2, hne⟩
          · exact absurd hex hnone
          · injection hu2 with hu2
            subst hu2
            simpa using hne
    | none =>
      constructor
      · simp only [true_iff]
        exact hall
      · constructor
        · intro hfalse
          cases hfalse
        · intro hor
          rcases hor with hex | ⟨_, u2, hu2, _⟩
          · exact absurd hex hnone
          · cases hu2

end GemScraper
